import Mathlib

/-!
Verification of the mobile inspection app's core pipeline
(local evidence store, remote sync, transcription, context extraction,
caption batch pipeline, analysis orchestrator).

Each definition is a shallow embedding of a function of the repository;
the file states and proves (or refutes) the specification's claims about
those functions.  Timestamps and durations (JavaScript numbers holding
millisecond or second counts) are modelled as integers; confidences
(JavaScript decimals such as 0.8, 0.9) as rationals; thrown JavaScript
exceptions as `Except`, carrying the thrown message where the source
inspects it.
-/

/-! ## JavaScript value helpers

The source relies on JavaScript truthiness (`x || d`), `Math.abs`,
`Array.prototype.join(' ')` and `String.prototype.trim()`.  The string
helpers are written by structural recursion so that concrete runs
evaluate inside the kernel. -/

/-- JavaScript `x || d` for an optional number `x`: the default `d` replaces
both an absent value and the (falsy) number `0`. -/

def jsNumOr (x : Option ℚ) (d : ℚ) : ℚ :=
  match x with
  | none => d
  | some v => if v = 0 then d else v

/-- JavaScript `s || d` for a string `s`: the default `d` replaces the
(falsy) empty string. -/

def jsStrOr (s d : String) : String :=
  if s = "" then d else s

/-- JavaScript `Math.abs` on an integer. -/

def mathAbs (x : ℤ) : ℤ :=
  if x < 0 then -x else x

/-- JavaScript `array.join(' ')`: the elements separated by single
spaces. -/

def joinSpace : List String → String
  | [] => ""
  | [s] => s
  | s :: rest => s ++ " " ++ joinSpace rest

/-- Drop leading whitespace characters from a character list. -/

def dropLeadingWS : List Char → List Char
  | [] => []
  | c :: cs => if c.isWhitespace then dropLeadingWS cs else c :: cs

/-- JavaScript `s.trim()`: remove whitespace from both ends. -/

def jsTrim (s : String) : String :=
  String.mk (dropLeadingWS ((dropLeadingWS s.data.reverse).reverse))

/-! ## Transcription service (`transcriptionService.ts`)

`TranscriptionSegment` is the record produced by `transcribeAudio`:
times in milliseconds.  `WhisperSegment`/`WhisperResponse` model the raw
speech-to-text response consumed at lines 61–70 of the service: times in
the service's native seconds, confidence possibly absent.  The field
`stop` embeds the source's `end` field (`end` is reserved in Lean). -/

structure TranscriptionSegment where
  start : ℤ
  stop : ℤ
  text : String
  confidence : ℚ
deriving DecidableEq, Repr

structure TranscriptionResult where
  text : String
  segments : List TranscriptionSegment
  confidence : ℚ
deriving DecidableEq, Repr

/-- A segment of the raw speech-to-text (Whisper) response: `start`/`stop`
are in the service's native seconds; `confidence` may be absent
(`undefined`). -/

structure WhisperSegment where
  start : ℤ
  stop : ℤ
  text : String
  confidence : Option ℚ
deriving DecidableEq, Repr

/-- The raw speech-to-text response body (`result` in `transcribeAudio`). -/

structure WhisperResponse where
  text : String
  segments : List WhisperSegment
  confidence : Option ℚ
deriving DecidableEq, Repr

/-- Embeds `TranscriptionService.transcribeAudio`, success path (lines 61–70 of
the service): the mapping applied to the decoded speech-to-text response.
Each segment's `start`/`end` is multiplied by 1000 (seconds →
milliseconds) and `segment.confidence || 0.8` defaults the confidence;
the whole-result confidence is defaulted the same way. -/

def transcribeAudio (result : WhisperResponse) : TranscriptionResult :=
  { text := result.text
    segments := result.segments.map fun segment =>
      { start := segment.start * 1000
        stop := segment.stop * 1000
        text := segment.text
        confidence := jsNumOr segment.confidence 0.8 }
    confidence := jsNumOr result.confidence 0.8 }

/-- Embeds `TranscriptionService.getContextAroundTimestamp` (lines 114–124):
keep the segments whose start or end is within `contextRange` of
`timestamp` (by `Math.abs` distance), join their texts with `' '`, then
trim. -/

def getContextAroundTimestamp (segments : List TranscriptionSegment)
    (timestamp : ℤ) (contextRange : ℤ := 5000) : String :=
  jsTrim (joinSpace
    ((segments.filter fun segment =>
        decide (mathAbs (segment.start - timestamp) ≤ contextRange)
          || decide (mathAbs (segment.stop - timestamp) ≤ contextRange)).map
      fun segment => segment.text))

/-- Spec-side window predicate: the segment's start or end lies within the
closed interval from `timestamp - w` to `timestamp + w`. -/

def segmentInWindow (timestamp w : ℤ) (s : TranscriptionSegment) : Prop :=
  (timestamp - w ≤ s.start ∧ s.start ≤ timestamp + w)
    ∨ (timestamp - w ≤ s.stop ∧ s.stop ≤ timestamp + w)

instance (timestamp w : ℤ) (s : TranscriptionSegment) :
    Decidable (segmentInWindow timestamp w s) := by
  unfold segmentInWindow; infer_instance

/-- Spec-side context extraction, written from the specification's words:
select every segment whose start or end lies in the symmetric window,
concatenate their texts in segment order separated by spaces, trim
surrounding whitespace. -/

def contextOfWindow (segments : List TranscriptionSegment)
    (timestamp w : ℤ) : String :=
  jsTrim (joinSpace
    ((segments.filter fun s => decide (segmentInWindow timestamp w s)).map
      fun s => s.text))

/-! ## LLM caption service (`llmCaptionService.ts`)

The external language-model call is modelled by an oracle
`llm : CaptionRequest → Option (Option String)`: `none` means the
request throws (transport error or non-success response), `some content`
is the decoded `choices[0]?.message?.content` of a successful response
(`none` inside when that field is absent). -/

structure InspectionDetails where
  client : String
  address : String
  claimNumber : String
deriving DecidableEq, Repr

structure CaptionRequest where
  photoTimestamp : ℤ
  audioContext : String
  inspectionDetails : InspectionDetails
  photoDescription : Option String := none
deriving DecidableEq, Repr

structure CaptionResult where
  caption : String
  confidence : ℚ
  context : String
  timestamp : ℤ
deriving DecidableEq, Repr

/-- Embeds `LLMCaptionService.generateCaption` (lines 67–117): on a successful
response the caption is `content?.trim() || 'No caption generated'`,
confidence is 0.9, and the request's context and timestamp are echoed
back; a thrown error propagates (`none`). -/

def generateCaption (llm : CaptionRequest → Option (Option String))
    (request : CaptionRequest) : Option CaptionResult :=
  match llm request with
  | none => none
  | some content =>
    some
      { caption := jsStrOr ((content.map jsTrim).getD "") "No caption generated"
        confidence := 0.9
        context := request.audioContext
        timestamp := request.photoTimestamp }

/-- The sentinel substituted for a failed per-item caption request
(the `.catch` handler at lines 171–179). -/

def sentinelResult (request : CaptionRequest) : CaptionResult :=
  { caption := "Caption generation failed"
    confidence := 0
    context := request.audioContext
    timestamp := request.photoTimestamp }

/-- One batch item: `generateCaption(request).catch(error => sentinel)`. -/

def generateCaptionCaught (llm : CaptionRequest → Option (Option String))
    (request : CaptionRequest) : CaptionResult :=
  match generateCaption llm request with
  | some result => result
  | none => sentinelResult request

/-- Embeds `LLMCaptionService.generateCaptionsBatch` (lines 160–193): the loop
`for (i = 0; i < requests.length; i += batchSize)` with `batchSize = 3`,
unrolled on the list structure: each step maps the caught per-item call
over `requests.slice(i, i + 3)` and appends; the inter-batch delay has no
effect on the produced values. -/

def generateCaptionsBatch (llm : CaptionRequest → Option (Option String)) :
    List CaptionRequest → List CaptionResult
  | [] => []
  | [a] => [generateCaptionCaught llm a]
  | [a, b] => [generateCaptionCaught llm a, generateCaptionCaught llm b]
  | a :: b :: c :: rest =>
    generateCaptionCaught llm a :: generateCaptionCaught llm b
      :: generateCaptionCaught llm c :: generateCaptionsBatch llm rest

/-! ## Remote document store (`firestoreService.ts`)

`FirestoreService.createInspection` (lines 274–291) and
`FirestoreService.addPhoto` (lines 296–312) both call `addDoc`, which
stores the payload under a fresh store-generated document identifier
(modelled by the counter `nextDocId`); they do not write under the
locally assigned identifier carried inside the payload. -/

/-- Payload of `FirestoreService.createInspection`
(`Omit<FirestoreInspection, 'createdAt' | 'updatedAt'>`). -/

structure FirestoreInspectionData where
  id : Option String := none
  client : String
  address : String
  claimNumber : String
  inspectionDate : String
  audioUri : Option String := none
  firebaseAudioUrl : Option String := none
  status : String
deriving DecidableEq, Repr

/-- Payload of `FirestoreService.addPhoto`
(`Omit<FirestorePhoto, 'createdAt'>`). -/

structure FirestorePhotoData where
  id : Option String := none
  inspectionId : String
  photoUri : String
  firebaseUrl : Option String := none
  timestamp : ℤ
  audioTimestamp : ℤ
  caption : Option String := none
deriving DecidableEq, Repr

/-- The remote document store: two collections of documents, each document
a store-generated identifier paired with its payload. -/

structure FirestoreState where
  inspections : List (Nat × FirestoreInspectionData)
  photos : List (Nat × FirestorePhotoData)
  nextDocId : Nat
deriving Repr

def FirestoreState.empty : FirestoreState := ⟨[], [], 0⟩

/-- Embeds `FirestoreService.createInspection`: `addDoc(collection(...), data)` —
append the payload under a fresh document identifier and return that
identifier. -/

def fsCreateInspection (data : FirestoreInspectionData)
    (st : FirestoreState) : Nat × FirestoreState :=
  (st.nextDocId,
    { st with
        inspections := st.inspections ++ [(st.nextDocId, data)]
        nextDocId := st.nextDocId + 1 })

/-- Embeds `FirestoreService.addPhoto`: `addDoc` on the photos collection. -/

def fsAddPhoto (data : FirestorePhotoData)
    (st : FirestoreState) : Nat × FirestoreState :=
  (st.nextDocId,
    { st with
        photos := st.photos ++ [(st.nextDocId, data)]
        nextDocId := st.nextDocId + 1 })

/-- Number of stored inspection documents whose payload equals `data`
(what a read-back query matching the written payload returns). -/

def fsCountInspectionsWith (st : FirestoreState)
    (data : FirestoreInspectionData) : Nat :=
  (st.inspections.filter fun d => d.2 == data).length

/-! ## Local evidence store (`database/index.ts`)

SQLite tables `inspections` and `photos`.  The PRIMARY KEY on each `id`
column is enforced; the declared `FOREIGN KEY (inspection_id) REFERENCES
inspections (id)` is NOT enforced at run time, because SQLite leaves
foreign-key enforcement off unless `PRAGMA foreign_keys = ON` is issued,
and `initDatabase` (lines 325–357) only creates the tables.  `addPhoto`
itself performs no existence check on the referenced inspection. -/

structure DatabaseInspection where
  id : String
  client : String
  address : String
  claim_number : String
  inspection_date : String
  audio_uri : Option String := none
  firebase_audio_url : Option String := none
  status : String
  created_at : ℤ
  updated_at : ℤ
deriving DecidableEq, Repr

structure DatabasePhoto where
  id : String
  inspection_id : String
  photo_uri : String
  firebase_url : Option String := none
  timestamp : ℤ
  audio_timestamp : ℤ
  caption : Option String := none
  created_at : ℤ
deriving DecidableEq, Repr

/-- The type `Omit<DatabasePhoto, 'created_at'>`: the argument of `addPhoto`. -/

structure DatabasePhotoInput where
  id : String
  inspection_id : String
  photo_uri : String
  firebase_url : Option String := none
  timestamp : ℤ
  audio_timestamp : ℤ
  caption : Option String := none
deriving DecidableEq, Repr

/-- The row `addPhoto` inserts: the input columns plus `created_at = now`
(`Date.now()` at call time). -/

def DatabasePhotoInput.toRow (photo : DatabasePhotoInput) (now : ℤ) :
    DatabasePhoto :=
  { id := photo.id
    inspection_id := photo.inspection_id
    photo_uri := photo.photo_uri
    firebase_url := photo.firebase_url
    timestamp := photo.timestamp
    audio_timestamp := photo.audio_timestamp
    caption := photo.caption
    created_at := now }

structure InspectionDatabaseState where
  inspections : List DatabaseInspection
  photos : List DatabasePhoto
deriving DecidableEq, Repr

def InspectionDatabaseState.empty : InspectionDatabaseState := ⟨[], []⟩

/-- Embeds `InspectionDatabase.addPhoto` (lines 387–405): `INSERT INTO photos
(id, inspection_id, photo_uri, firebase_url, timestamp, audio_timestamp,
caption, created_at) VALUES (?, ?, ?, ?, ?, ?, ?, ?)`.  The insert fails
only on a duplicate primary key; the referenced inspection is never
looked up (see the section comment on foreign keys). -/

def addPhoto (now : ℤ) (photo : DatabasePhotoInput)
    (db : InspectionDatabaseState) : Except String InspectionDatabaseState :=
  if db.photos.any fun p => p.id == photo.id then
    .error "UNIQUE constraint failed: photos.id"
  else
    .ok { db with photos := db.photos ++ [photo.toRow now] }

/-- The `ORDER BY timestamp ASC` relation of `getPhotosForInspection`:
comparison on the wall-clock `timestamp` column. -/

def photoTimestampLE (a b : DatabasePhoto) : Prop :=
  a.timestamp ≤ b.timestamp

instance : DecidableRel photoTimestampLE :=
  fun a b => Int.decLe a.timestamp b.timestamp

instance : IsTotal DatabasePhoto photoTimestampLE :=
  ⟨fun a b => le_total a.timestamp b.timestamp⟩

instance : IsTrans DatabasePhoto photoTimestampLE :=
  ⟨fun _ _ _ hab hbc => le_trans hab hbc⟩

/-- Embeds `InspectionDatabase.getPhotosForInspection` (lines 419–423):
`SELECT * FROM photos WHERE inspection_id = ? ORDER BY timestamp ASC`.
The rows of the inspection, sorted (stably) by the wall-clock `timestamp`
column — not by `audio_timestamp`. -/

def getPhotosForInspection (db : InspectionDatabaseState)
    (inspectionId : String) : List DatabasePhoto :=
  List.insertionSort photoTimestampLE
    (db.photos.filter fun p => p.inspection_id == inspectionId)

/-- A sequence of `addPhoto` calls, each with its `Date.now()` value; a
call that fails leaves the store unchanged (the exception propagates to
the caller while the transaction inserted nothing). -/

def applyAddPhotos (db : InspectionDatabaseState) :
    List (ℤ × DatabasePhotoInput) → InspectionDatabaseState
  | [] => db
  | (now, photo) :: rest =>
    match addPhoto now photo db with
    | .ok db₂ => applyAddPhotos db₂ rest
    | .error _ => applyAddPhotos db rest

/-! ## Recording session (`RecordingContext.tsx`)

Both copies of `startRecording` in the repository (the one that uploads
on stop and the plain one) behave identically up to the end of the start
call: request permission, configure the audio mode, call
`Audio.Recording.createAsync`, store the new recording in
`recordingRef.current`, reset `recordingState` and start the duration
interval.  Neither consults `recordingRef`/`recordingState` before
creating the new recording.

The capture device is an external collaborator; one start attempt's
interaction with it is summarised by `StartRecordingDevice`.  The ghost
field `openRecordings` records every device recording created and not
yet stopped or unloaded. -/

structure RecordingState where
  isRecording : Bool
  audioUri : Option String := none
  startTime : Option ℤ := none
  duration : ℤ := 0
deriving DecidableEq, Repr

structure RecordingSession where
  recordingRef : Option Nat := none
  intervalActive : Bool := false
  recordingState : RecordingState := { isRecording := false }
  openRecordings : List Nat := []
  nextHandle : Nat := 0
deriving DecidableEq, Repr

def RecordingSession.initial : RecordingSession := {}

/-- The device side of one `startRecording` attempt: the permission
request is denied, or `Audio.Recording.createAsync` throws (a transport
or device failure, or the audio library's own refusal to prepare a
second concurrent recording), or a new device recording is created. -/
inductive StartRecordingDevice where
  | permissionDenied
  | createFails (msg : String)
  | created
deriving DecidableEq, Repr

/-- Embeds `startRecording` (part_001 lines 39–91 / part_002 lines 37–81): throw
when permission is denied or `createAsync` throws — in both cases before
any state update — otherwise store the new recording handle, mark the
state recording with the captured start instant, and start the duration
interval.  The session never inspects its own state before starting. -/

def startRecording (dev : StartRecordingDevice) (now : ℤ)
    (s : RecordingSession) : Except String RecordingSession :=
  match dev with
  | .permissionDenied => .error "Audio permission not granted"
  | .createFails msg => .error msg
  | .created =>
    .ok
      { recordingRef := some s.nextHandle
        intervalActive := true
        recordingState :=
          { isRecording := true
            audioUri := none
            startTime := some now
            duration := 0 }
        openRecordings := s.openRecordings ++ [s.nextHandle]
        nextHandle := s.nextHandle + 1 }

/-! ## Analysis orchestrator (`inspectionAnalysisService.ts`, part_005)

The collaborators of `analyzeInspection` are summarised by
`AnalysisEnv`: what `getInspection`, `transcribeAudio` and
`getPhotosForInspection` return (or throw, as `Except.error` with the
thrown message), the LLM oracle, and which remote caption/status writes
throw. -/

structure PhotoCaptionResult where
  photoId : String
  caption : String
  confidence : ℚ
  audioContext : String
  timestamp : ℤ
deriving DecidableEq, Repr

structure AnalysisResult where
  inspectionId : String
  transcription : TranscriptionResult
  photoCaptions : List PhotoCaptionResult
  status : String
  error : Option String := none
deriving DecidableEq, Repr

/-- JavaScript truthiness of an optional string (`undefined` and `''` are
falsy). -/

def jsStrTruthy (s : Option String) : Bool :=
  match s with
  | none => false
  | some v => v != ""

/-- The caption request built for one photo inside
`generateCaptionsForPhotos` (lines 110–122): the context around the
photo's audio timestamp with a 3000 ms window, defaulted to
`'No audio context available'` when falsy. -/

def buildCaptionRequest (transcription : TranscriptionResult)
    (details : InspectionDetails) (photo : FirestorePhotoData) :
    CaptionRequest :=
  { photoTimestamp := photo.audioTimestamp
    audioContext :=
      jsStrOr
        (getContextAroundTimestamp transcription.segments
          photo.audioTimestamp 3000)
        "No audio context available"
    inspectionDetails := details }

/-- The request list handed to `generateCaptionsBatch`: one request per
photo with a truthy `id`, in photo order. -/

def captionRequestsOfPhotos (transcription : TranscriptionResult)
    (details : InspectionDetails) (photos : List FirestorePhotoData) :
    List CaptionRequest :=
  (photos.filter fun p => jsStrTruthy p.id).map
    (buildCaptionRequest transcription details)

/-- The per-photo record built from `captionResults[index]` (lines
128–134), with the source's `?.` and `||` defaults. -/

def photoCaptionOfIndex (captionResults : List CaptionResult)
    (index : Nat) (photo : FirestorePhotoData) : PhotoCaptionResult :=
  { photoId := photo.id.getD ""
    caption :=
      match captionResults.get? index with
      | some r => jsStrOr r.caption "No caption generated"
      | none => "No caption generated"
    confidence :=
      match captionResults.get? index with
      | some r => r.confidence
      | none => 0
    audioContext :=
      match captionResults.get? index with
      | some r => jsStrOr r.context "No context"
      | none => "No context"
    timestamp := photo.audioTimestamp }

/-- Embeds `InspectionAnalysisService.generateCaptionsForPhotos`
(lines 102–135). -/

def generateCaptionsForPhotos (llm : CaptionRequest → Option (Option String))
    (photos : List FirestorePhotoData) (transcription : TranscriptionResult)
    (details : InspectionDetails) : List PhotoCaptionResult :=
  let validPhotos := photos.filter fun p => jsStrTruthy p.id
  let captionResults :=
    generateCaptionsBatch llm
      (captionRequestsOfPhotos transcription details photos)
  validPhotos.mapIdx fun index photo =>
    photoCaptionOfIndex captionResults index photo

/-- Embeds `InspectionAnalysisService.updatePhotosWithCaptions` (lines 140–156):
every caption write is attempted; a failing write is logged and skipped,
so the call never throws.  Returns the writes that took effect. -/

def updatePhotosWithCaptions (writeFails : String → Bool)
    (photoCaptions : List PhotoCaptionResult) : List (String × String) :=
  (photoCaptions.filter fun pc => !writeFails pc.photoId).map
    fun pc => (pc.photoId, pc.caption)

/-- Embeds `FirestoreService.updateInspectionStatus` as seen by the
orchestrator: the write either takes effect (the stored status becomes
`status`) or throws, leaving the stored status unchanged. -/

def fsUpdateInspectionStatus (statusWriteFails : String → Bool)
    (status : String) : Except String String :=
  if statusWriteFails status then
    .error "Failed to update inspection status"
  else
    .ok status

structure AnalysisEnv where
  getInspection : Except String (Option FirestoreInspectionData)
  transcribeResult : String → Except String TranscriptionResult
  getPhotos : Except String (List FirestorePhotoData)
  llm : CaptionRequest → Option (Option String)
  updatePhotoCaptionFails : String → Bool
  updateStatusFails : String → Bool

/-- Steps 1–5 of `analyzeInspection` (lines 30–64): load the inspection
(`'Inspection not found'` when absent), require a truthy remote audio
location (`'No audio file found for inspection'`), transcribe, list
photos, generate the captions.  Each `Except.error` is a thrown
exception bound for the outer catch. -/

def analyzeInspectionTry (env : AnalysisEnv) :
    Except String (TranscriptionResult × List PhotoCaptionResult) := do
  let inspectionOpt ← env.getInspection
  let some inspection := inspectionOpt
    | throw "Inspection not found"
  if !jsStrTruthy inspection.firebaseAudioUrl then
    throw "No audio file found for inspection"
  let transcription ←
    env.transcribeResult (inspection.firebaseAudioUrl.getD "")
  let photos ← env.getPhotos
  let photoCaptions :=
    generateCaptionsForPhotos env.llm photos transcription
      ⟨inspection.client, inspection.address, inspection.claimNumber⟩
  return (transcription, photoCaptions)

/-- The result returned by the outer catch handler (lines 78–96). -/

def analysisFailureResult (inspectionId msg : String) : AnalysisResult :=
  { inspectionId
    transcription := { text := "", segments := [], confidence := 0 }
    photoCaptions := []
    status := "FAILED"
    error := some msg }

/-- The outer catch handler: a best-effort `ERROR` status write (its own
failure only logged), then the `FAILED` result — nothing is re-thrown. -/

def analysisCatch (env : AnalysisEnv) (inspectionId msg status₀ : String)
    (captionWrites : List (String × String)) :
    AnalysisResult × String × List (String × String) :=
  (analysisFailureResult inspectionId msg,
    (match fsUpdateInspectionStatus env.updateStatusFails "ERROR" with
      | .ok s => s
      | .error _ => status₀),
    captionWrites)

/-- Embeds `InspectionAnalysisService.analyzeInspection` (lines 26–97).
`status₀` is the remotely stored inspection status when the run starts;
the second component of the result is the stored status after the run,
the third the caption writes that took effect. -/

def analyzeInspection (env : AnalysisEnv) (inspectionId status₀ : String) :
    AnalysisResult × String × List (String × String) :=
  match analyzeInspectionTry env with
  | .error msg => analysisCatch env inspectionId msg status₀ []
  | .ok (transcription, photoCaptions) =>
    let captionWrites :=
      updatePhotosWithCaptions env.updatePhotoCaptionFails photoCaptions
    match fsUpdateInspectionStatus env.updateStatusFails "READY" with
    | .ok status₁ =>
      ({ inspectionId
         transcription
         photoCaptions
         status := "COMPLETED"
         error := none }, status₁, captionWrites)
    | .error msg => analysisCatch env inspectionId msg status₀ captionWrites

/-! ## Concrete inputs used by the claim theorems -/

/-- The seven requests of the batch-of-7 scenario: distinct timestamps
1–7. -/

def batchRequest (t : ℤ) : CaptionRequest :=
  { photoTimestamp := t
    audioContext := "ctx"
    inspectionDetails := ⟨"Client", "Addr", "CLM-1"⟩ }

/-- An LLM oracle that throws on request #4 (timestamp 4) and answers
`"ok"` otherwise. -/

def batchLlm (request : CaptionRequest) : Option (Option String) :=
  if request.photoTimestamp = 4 then none else some (some "ok")

def c1photoA : DatabasePhotoInput :=
  { id := "photo-a"
    inspection_id := "insp-1"
    photo_uri := "file://a.jpg"
    timestamp := 100
    audio_timestamp := 5000 }

def c1photoB : DatabasePhotoInput :=
  { id := "photo-b"
    inspection_id := "insp-1"
    photo_uri := "file://b.jpg"
    timestamp := 200
    audio_timestamp := 1000 }

def orphanPhoto : DatabasePhotoInput :=
  { id := "photo-1"
    inspection_id := "missing-inspection"
    photo_uri := "file://p.jpg"
    timestamp := 100
    audio_timestamp := 5000 }

def c3data : FirestoreInspectionData :=
  { id := some "insp-1"
    client := "Client A"
    address := "123 Main St"
    claimNumber := "CLM-001"
    inspectionDate := "2024-01-15"
    status := "DRAFT" }

def sessionAfterFirstStart : RecordingSession :=
  { recordingRef := some 0
    intervalActive := true
    recordingState :=
      { isRecording := true
        audioUri := none
        startTime := some 0
        duration := 0 }
    openRecordings := [0]
    nextHandle := 1 }

def c7inspection : FirestoreInspectionData :=
  { id := some "insp-1"
    client := "Client A"
    address := "123 Main St"
    claimNumber := "CLM-001"
    inspectionDate := "2024-01-15"
    firebaseAudioUrl := some "https://audio.example/insp-1.m4a"
    status := "PROCESSING" }

def c7transcription : TranscriptionResult :=
  { text := "roof damage near chimney"
    segments := [⟨0, 2000, "roof damage near chimney", 1⟩]
    confidence := 1 }

def c7photo1 : FirestorePhotoData :=
  { id := some "photo-1"
    inspectionId := "insp-1"
    photoUri := "file://p1.jpg"
    timestamp := 10
    audioTimestamp := 1000 }

def c7photo2 : FirestorePhotoData :=
  { id := some "photo-2"
    inspectionId := "insp-1"
    photoUri := "file://p2.jpg"
    timestamp := 20
    audioTimestamp := 600000 }

/-- An environment where every stage succeeds but the caption request
for photo 2 throws. -/

def c7env : AnalysisEnv :=
  { getInspection := .ok (some c7inspection)
    transcribeResult := fun url =>
      if url = "https://audio.example/insp-1.m4a" then .ok c7transcription
      else .error "Transcription failed: unknown url"
    getPhotos := .ok [c7photo1, c7photo2]
    llm := fun request =>
      if request.photoTimestamp = 1000 then some (some "Roof shingles damaged")
      else none
    updatePhotoCaptionFails := fun _ => false
    updateStatusFails := fun _ => false }

def c10transcription : TranscriptionResult :=
  { text := "early remark"
    segments := [⟨0, 2000, "early remark", 1⟩]
    confidence := 1 }

def c10details : InspectionDetails := ⟨"Client A", "123 Main St", "CLM-001"⟩

/-- A photo whose audio timestamp is far outside every segment's
window. -/

def c10photo : FirestorePhotoData :=
  { id := some "photo-9"
    inspectionId := "insp-9"
    photoUri := "file://p9.jpg"
    timestamp := 0
    audioTimestamp := 100000 }

/-! ## Helper lemmas and claim theorems -/

/-- The batched loop produces exactly the per-item results, in input
order: chunking into waves of 3 neither reorders, drops nor duplicates
items. -/
theorem generateCaptionsBatch_eq_map
    (llm : CaptionRequest → Option (Option String)) :
    ∀ requests : List CaptionRequest,
      generateCaptionsBatch llm requests
        = requests.map (generateCaptionCaught llm)
  | [] => rfl
  | [_] => rfl
  | [_, _] => rfl
  | _ :: _ :: _ :: rest => by
    simp [generateCaptionsBatch, generateCaptionsBatch_eq_map llm rest]

theorem mathAbs_le_iff (x w : ℤ) : mathAbs x ≤ w ↔ -w ≤ x ∧ x ≤ w := by
  unfold mathAbs
  split_ifs <;> omega

/-- The source's `Math.abs`-distance test coincides, segment by segment,
with membership of the start or end in the closed window. -/
theorem segmentFilter_eq_window (t w : ℤ) (s : TranscriptionSegment) :
    (decide (mathAbs (s.start - t) ≤ w) || decide (mathAbs (s.stop - t) ≤ w))
      = decide (segmentInWindow t w s) := by
  have h1 : mathAbs (s.start - t) ≤ w ↔ t - w ≤ s.start ∧ s.start ≤ t + w := by
    rw [mathAbs_le_iff]; omega
  have h2 : mathAbs (s.stop - t) ≤ w ↔ t - w ≤ s.stop ∧ s.stop ≤ t + w := by
    rw [mathAbs_le_iff]; omega
  simp [segmentInWindow, h1, h2]

theorem getContext_eq_contextOfWindow (segments : List TranscriptionSegment)
    (t w : ℤ) :
    getContextAroundTimestamp segments t w = contextOfWindow segments t w := by
  unfold getContextAroundTimestamp contextOfWindow
  rw [List.filter_congr fun s _ => segmentFilter_eq_window t w s]

/-- Claim C4 (amended): with window 3000 ms, context extraction returns
exactly the segments whose start or end lies in the closed window
`[T - 3000, T + 3000]`, their texts joined with spaces in segment order
and trimmed; when no segment qualifies the result is the empty string,
not an error.  On the segments `[(0,2000,"a"), (5000,7000,"b"),
(9000,11000,"c")]` with `T = 6000` the result is `"b c"` — segment `c`
qualifies because its start `9000` lies exactly on the inclusive window
boundary `T + 3000` — not `"b"` as the original claim stated. -/
theorem getContextAroundTimestamp_window_spec
    (segments : List TranscriptionSegment) (t : ℤ) :
    getContextAroundTimestamp segments t 3000 = contextOfWindow segments t 3000
      ∧ (segments.filter (fun s => decide (segmentInWindow t 3000 s)) = [] →
          getContextAroundTimestamp segments t 3000 = "")
      ∧ getContextAroundTimestamp
          [⟨0, 2000, "a", 1⟩, ⟨5000, 7000, "b", 1⟩, ⟨9000, 11000, "c", 1⟩]
          6000 3000 = "b c" := by
  refine ⟨getContext_eq_contextOfWindow segments t 3000, fun h => ?_, by decide⟩
  rw [getContext_eq_contextOfWindow]
  unfold contextOfWindow
  rw [h]
  rfl

theorem getContextAroundTimestamp_window_spec_witness :
    ([⟨0, 2000, "a", (1 : ℚ)⟩] :
        List TranscriptionSegment).filter
          (fun s => decide (segmentInWindow 100000 3000 s)) = []
      ∧ getContextAroundTimestamp [⟨0, 2000, "a", 1⟩] 100000 3000 = "" :=
  ⟨by decide,
    (getContextAroundTimestamp_window_spec [⟨0, 2000, "a", 1⟩] 100000).2.1
      (by decide)⟩

/-- Claim C4 counterexample: on the claim's own example — segments
`[(0,2000,"a"), (5000,7000,"b"), (9000,11000,"c")]`, `T = 6000`,
window 3000 — the code returns `"b c"`, not `"b"` only: segment `c`'s
start `9000` satisfies `|9000 - 6000| ≤ 3000`. -/
theorem getContextAroundTimestamp_boundary_example :
    getContextAroundTimestamp
        [⟨0, 2000, "a", 1⟩, ⟨5000, 7000, "b", 1⟩, ⟨9000, 11000, "c", 1⟩]
        6000 3000 = "b c"
      ∧ ("b c" : String) ≠ "b" := by
  exact ⟨by decide, by decide⟩

/-- Claim C8: `transcribeAudio` converts each returned segment's start
and end from the service's native seconds to milliseconds by multiplying
by 1000, and defaults an absent per-segment confidence to 0.8. -/
theorem transcribeAudio_seconds_to_ms (result : WhisperResponse) (i : Nat)
    (segment : WhisperSegment) (h : result.segments[i]? = some segment) :
    (transcribeAudio result).segments[i]?
        = some
            { start := segment.start * 1000
              stop := segment.stop * 1000
              text := segment.text
              confidence := jsNumOr segment.confidence 0.8 }
      ∧ (segment.confidence = none →
          (transcribeAudio result).segments[i]?
            = some
                { start := segment.start * 1000
                  stop := segment.stop * 1000
                  text := segment.text
                  confidence := 0.8 }) := by
  constructor
  · simp [transcribeAudio, List.getElem?_map, h]
  · intro hc
    simp [transcribeAudio, List.getElem?_map, h, hc, jsNumOr]

theorem transcribeAudio_seconds_to_ms_witness :
    (({ text := "hello"
        segments := [⟨2, 3, "seg", none⟩]
        confidence := some 1 } : WhisperResponse).segments[0]?
          = some ⟨2, 3, "seg", none⟩)
      ∧ ((transcribeAudio
            { text := "hello"
              segments := [⟨2, 3, "seg", none⟩]
              confidence := some 1 }).segments[0]?
            = some
                { start := 2 * 1000
                  stop := 3 * 1000
                  text := "seg"
                  confidence := jsNumOr none 0.8 }
          ∧ ((⟨2, 3, "seg", none⟩ : WhisperSegment).confidence = none →
              (transcribeAudio
                { text := "hello"
                  segments := [⟨2, 3, "seg", none⟩]
                  confidence := some 1 }).segments[0]?
                = some
                    { start := 2 * 1000
                      stop := 3 * 1000
                      text := "seg"
                      confidence := 0.8 })) :=
  ⟨rfl,
    transcribeAudio_seconds_to_ms
      { text := "hello"
        segments := [⟨2, 3, "seg", none⟩]
        confidence := some 1 }
      0 ⟨2, 3, "seg", none⟩ rfl⟩

/-- Claim C9: because the default is applied with JavaScript `||`, a
reported confidence of exactly 0 — whether on a segment or on the whole
result — is replaced by the default 0.8, not preserved. -/
theorem transcribeAudio_zero_confidence_default (result : WhisperResponse) :
    (result.confidence = some 0 → (transcribeAudio result).confidence = 0.8)
      ∧ (∀ (i : Nat) (segment : WhisperSegment),
          result.segments[i]? = some segment →
          segment.confidence = some 0 →
          (transcribeAudio result).segments[i]?
            = some
                { start := segment.start * 1000
                  stop := segment.stop * 1000
                  text := segment.text
                  confidence := 0.8 }) := by
  constructor
  · intro h
    simp [transcribeAudio, h, jsNumOr]
  · intro i segment h h0
    simp [transcribeAudio, List.getElem?_map, h, h0, jsNumOr]

theorem transcribeAudio_zero_confidence_default_witness :
    (({ text := "t"
        segments := [⟨1, 2, "s", some 0⟩]
        confidence := some 0 } : WhisperResponse).confidence = some 0)
      ∧ ((transcribeAudio
            { text := "t"
              segments := [⟨1, 2, "s", some 0⟩]
              confidence := some 0 }).confidence = 0.8)
      ∧ ((transcribeAudio
            { text := "t"
              segments := [⟨1, 2, "s", some 0⟩]
              confidence := some 0 }).segments[0]?
          = some { start := 1 * 1000, stop := 2 * 1000, text := "s", confidence := 0.8 }) :=
  ⟨rfl,
    (transcribeAudio_zero_confidence_default
      { text := "t", segments := [⟨1, 2, "s", some 0⟩], confidence := some 0 }).1 rfl,
    (transcribeAudio_zero_confidence_default
      { text := "t", segments := [⟨1, 2, "s", some 0⟩], confidence := some 0 }).2
      0 ⟨1, 2, "s", some 0⟩ rfl rfl⟩

/-- Claim C5: for every list of caption requests, the batch pipeline
returns exactly one result per request, index-aligned with the input
order; a request whose individual generation throws yields the sentinel
(`caption = "Caption generation failed"`, `confidence = 0`) at its index,
while every other request's result is the one its own generation
produced — no single failure perturbs the rest of the batch. -/
theorem generateCaptionsBatch_contract
    (llm : CaptionRequest → Option (Option String))
    (requests : List CaptionRequest) :
    (generateCaptionsBatch llm requests).length = requests.length
      ∧ generateCaptionsBatch llm requests
          = requests.map (generateCaptionCaught llm)
      ∧ (∀ (i : Nat) (request : CaptionRequest),
          requests[i]? = some request →
          generateCaption llm request = none →
          (generateCaptionsBatch llm requests)[i]?
            = some (sentinelResult request))
      ∧ (∀ (i : Nat) (request : CaptionRequest) (result : CaptionResult),
          requests[i]? = some request →
          generateCaption llm request = some result →
          (generateCaptionsBatch llm requests)[i]? = some result) := by
  refine ⟨?_, generateCaptionsBatch_eq_map llm requests, ?_, ?_⟩
  · rw [generateCaptionsBatch_eq_map llm requests, List.length_map]
  · intro i request h hfail
    rw [generateCaptionsBatch_eq_map llm requests, List.getElem?_map, h]
    simp [generateCaptionCaught, hfail]
  · intro i request result h hok
    rw [generateCaptionsBatch_eq_map llm requests, List.getElem?_map, h]
    simp [generateCaptionCaught, hok]

theorem generateCaptionsBatch_contract_witness :
    ((List.range 7).map (fun n => batchRequest (n + 1)))[3]?
        = some (batchRequest 4)
      ∧ generateCaption batchLlm (batchRequest 4) = none
      ∧ (generateCaptionsBatch batchLlm
          ((List.range 7).map (fun n => batchRequest (n + 1))))[3]?
          = some (sentinelResult (batchRequest 4))
      ∧ (generateCaptionsBatch batchLlm
          ((List.range 7).map (fun n => batchRequest (n + 1)))).length = 7 :=
  ⟨by decide, rfl,
    (generateCaptionsBatch_contract batchLlm
      ((List.range 7).map (fun n => batchRequest (n + 1)))).2.2.1
      3 (batchRequest 4) (by decide) rfl,
    by
      rw [(generateCaptionsBatch_contract batchLlm
        ((List.range 7).map (fun n => batchRequest (n + 1)))).1]
      decide⟩

/-- Applying a sequence of `addPhoto` calls whose identifiers are fresh
and pairwise distinct appends exactly the corresponding rows, in call
order. -/
theorem applyAddPhotos_photos :
    ∀ (calls : List (ℤ × DatabasePhotoInput)) (db : InspectionDatabaseState),
      (db.photos.map (fun p => p.id) ++ calls.map (fun c => c.2.id)).Nodup →
      (applyAddPhotos db calls).photos
        = db.photos ++ calls.map (fun c => c.2.toRow c.1)
  | [], db, _ => by simp [applyAddPhotos]
  | (now, photo) :: rest, db, h => by
    have hdisj : photo.id ∉ db.photos.map (fun p => p.id) := by
      intro hmem
      exact (List.nodup_append.mp h).2.2 hmem (by simp)
    have hany : (db.photos.any fun p => p.id == photo.id) = false := by
      rw [List.any_eq_false]
      intro p hp
      simp only [beq_iff_eq]
      intro hpe
      exact hdisj (List.mem_map.mpr ⟨p, hp, hpe⟩)
    have h₂ : ((db.photos ++ [photo.toRow now]).map (fun p => p.id)
        ++ rest.map (fun c => c.2.id)).Nodup := by
      simpa [DatabasePhotoInput.toRow, List.append_assoc] using h
    have haddp : addPhoto now photo db
        = .ok { db with photos := db.photos ++ [photo.toRow now] } := by
      simp [addPhoto, hany]
    have hrec := applyAddPhotos_photos rest
      { db with photos := db.photos ++ [photo.toRow now] } h₂
    simp only [applyAddPhotos, haddp]
    rw [hrec]
    simp

/-- Claim C1 (amended): for every inspection and every sequence of
`addPhoto` calls with fresh identifiers, `getPhotosForInspection`
returns exactly the inspection's photos, ordered by the wall-clock
capture `timestamp` column ascending — not by the recording-relative
`audio_timestamp`: both implementations sort on `timestamp`
(`ORDER BY timestamp ASC` locally, `orderBy('timestamp', 'asc')`
remotely), so audio-timestamp order is obtained only when it agrees
with wall-clock order. -/
theorem getPhotosForInspection_wallclock_order
    (calls : List (ℤ × DatabasePhotoInput)) (inspectionId : String)
    (h : (calls.map fun c => c.2.id).Nodup) :
    (getPhotosForInspection (applyAddPhotos .empty calls)
        inspectionId).Sorted photoTimestampLE
      ∧ (getPhotosForInspection (applyAddPhotos .empty calls)
          inspectionId).Perm
          ((calls.map fun c => c.2.toRow c.1).filter
            fun p => p.inspection_id == inspectionId) := by
  have hphotos : (applyAddPhotos InspectionDatabaseState.empty calls).photos
      = calls.map fun c => c.2.toRow c.1 := by
    have hn : ((InspectionDatabaseState.empty.photos.map fun p => p.id)
        ++ calls.map fun c => c.2.id).Nodup := by
      simpa [InspectionDatabaseState.empty] using h
    simpa [InspectionDatabaseState.empty]
      using applyAddPhotos_photos calls .empty hn
  constructor
  · exact List.sorted_insertionSort photoTimestampLE _
  · unfold getPhotosForInspection
    rw [hphotos]
    exact List.perm_insertionSort photoTimestampLE _

theorem getPhotosForInspection_wallclock_order_witness :
    (([(0, c1photoA), (1, c1photoB)].map
        fun c : ℤ × DatabasePhotoInput => c.2.id)).Nodup
      ∧ ((getPhotosForInspection
            (applyAddPhotos .empty [(0, c1photoA), (1, c1photoB)])
            "insp-1").Sorted photoTimestampLE
        ∧ (getPhotosForInspection
            (applyAddPhotos .empty [(0, c1photoA), (1, c1photoB)])
            "insp-1").Perm
            (([(0, c1photoA), (1, c1photoB)].map
                fun c : ℤ × DatabasePhotoInput => c.2.toRow c.1).filter
              fun p => p.inspection_id == "insp-1")) :=
  ⟨by decide,
    getPhotosForInspection_wallclock_order
      [(0, c1photoA), (1, c1photoB)] "insp-1" (by decide)⟩

/-- Claim C1 counterexample: photo A (wall-clock timestamp 100, audio
timestamp 5000) inserted before photo B (wall-clock 200, audio 1000):
`getPhotosForInspection` returns them with audio timestamps
`[5000, 1000]` — ordered by wall-clock capture time, not by audio
timestamp ascending as the claim states. -/
theorem getPhotosForInspection_not_audio_order_example :
    ((getPhotosForInspection
        (applyAddPhotos .empty [(0, c1photoA), (1, c1photoB)])
        "insp-1").map fun p => p.audio_timestamp) = [5000, 1000]
      ∧ ¬ List.Sorted (· ≤ ·)
          ((getPhotosForInspection
            (applyAddPhotos .empty [(0, c1photoA), (1, c1photoB)])
            "insp-1").map fun p => p.audio_timestamp) := by
  have hmap : ((getPhotosForInspection
      (applyAddPhotos .empty [(0, c1photoA), (1, c1photoB)])
      "insp-1").map fun p => p.audio_timestamp) = [5000, 1000] := by decide
  refine ⟨hmap, ?_⟩
  rw [hmap]
  intro hs
  have h51 : (5000 : ℤ) ≤ 1000 :=
    List.rel_of_sorted_cons hs 1000 (by simp)
  omega

/-- Claim C6 (code-bug evidence): on an empty store — so the referenced
inspection `"missing-inspection"` does not exist — `addPhoto` succeeds
and inserts the orphan photo row, instead of failing with
`UnknownInspection` and inserting nothing: the insert performs no
existence check and the declared foreign key is never enforced. -/
theorem addPhoto_unknown_inspection_inserts :
    InspectionDatabaseState.empty.inspections = []
      ∧ addPhoto 0 orphanPhoto InspectionDatabaseState.empty
          = .ok { inspections := [], photos := [orphanPhoto.toRow 0] } :=
  ⟨rfl, rfl⟩

/-- Claim C3 (amended): the remote writes are `addDoc` calls, not
upserts: writing the same inspection payload twice stores two distinct
documents under two distinct store-generated identifiers, and a read
back matching the payload returns both — one more record per retry, not
one record in total. -/
theorem fsCreateInspection_addDoc_semantics (data : FirestoreInspectionData)
    (st : FirestoreState) :
    (fsCreateInspection data st).1
        ≠ (fsCreateInspection data (fsCreateInspection data st).2).1
      ∧ (fsCreateInspection data (fsCreateInspection data st).2).2.inspections
          = st.inspections
              ++ [((fsCreateInspection data st).1, data),
                  ((fsCreateInspection data (fsCreateInspection data st).2).1,
                    data)]
      ∧ fsCountInspectionsWith
            (fsCreateInspection data (fsCreateInspection data st).2).2 data
          = fsCountInspectionsWith st data + 2 := by
  refine ⟨by simp [fsCreateInspection], by simp [fsCreateInspection], ?_⟩
  simp [fsCreateInspection, fsCountInspectionsWith, List.filter_append]

/-- Claim C3 counterexample: writing the payload `c3data` twice (a
retried upload with identical payload) leaves two matching remote
records, not one. -/
theorem fsCreateInspection_retry_creates_two_records :
    fsCountInspectionsWith
        (fsCreateInspection c3data
          (fsCreateInspection c3data FirestoreState.empty).2).2 c3data = 2
      ∧ (2 : Nat) ≠ 1 := by
  exact ⟨by decide, by decide⟩

/-- Claim C2 (amended): `startRecording` performs no busy check of its
own.  From every state in which a recording is already active, a second
`start()` without an intervening `stop()`/`reset()`, with permission
granted and the device create succeeding, returns success — it does not
fail with `DeviceBusy` — stores a new device recording in
`recordingRef`, and leaves every previously created recording open
(never stopped).  A second start fails only when the device layer itself
denies permission or throws in `createAsync`. -/
theorem startRecording_second_start_succeeds (s : RecordingSession)
    (now : ℤ) (_active : s.recordingState.isRecording = true) :
    ∃ s₂, startRecording .created now s = .ok s₂
      ∧ s₂.recordingRef = some s.nextHandle
      ∧ s₂.recordingState.isRecording = true
      ∧ s₂.openRecordings = s.openRecordings ++ [s.nextHandle]
      ∧ ∀ old ∈ s.openRecordings, old ∈ s₂.openRecordings := by
  refine ⟨_, rfl, rfl, rfl, rfl, ?_⟩
  intro old hold
  simp only [List.mem_append]
  exact Or.inl hold

theorem startRecording_second_start_succeeds_witness :
    sessionAfterFirstStart.recordingState.isRecording = true
      ∧ ∃ s₂, startRecording .created 5 sessionAfterFirstStart = .ok s₂
          ∧ s₂.recordingRef = some sessionAfterFirstStart.nextHandle
          ∧ s₂.recordingState.isRecording = true
          ∧ s₂.openRecordings
              = sessionAfterFirstStart.openRecordings
                  ++ [sessionAfterFirstStart.nextHandle]
          ∧ ∀ old ∈ sessionAfterFirstStart.openRecordings,
              old ∈ s₂.openRecordings :=
  ⟨rfl, startRecording_second_start_succeeds sessionAfterFirstStart 5 rfl⟩

/-- Claim C2 counterexample: after a first successful start (state
`sessionAfterFirstStart`, recording active), a second `start()` with the
device granting permission and creating a recording succeeds — returning
a state with a second open device recording — instead of failing with
`DeviceBusy`. -/
theorem startRecording_twice_no_busy_failure :
    startRecording .created 0 RecordingSession.initial
        = .ok sessionAfterFirstStart
      ∧ sessionAfterFirstStart.recordingState.isRecording = true
      ∧ startRecording .created 5 sessionAfterFirstStart
          = .ok
              { recordingRef := some 1
                intervalActive := true
                recordingState :=
                  { isRecording := true
                    audioUri := none
                    startTime := some 5
                    duration := 0 }
                openRecordings := [0, 1]
                nextHandle := 2 } :=
  ⟨rfl, rfl, rfl⟩

/-- Claim C7: the analysis run always hands its caller a tagged
`COMPLETED`/`FAILED` result — never an exception; when steps 1–6 all
succeed (the LLM oracle and the per-photo caption writes left arbitrary,
so individual caption failures are allowed) the stored status becomes
`READY` and the result `COMPLETED`; when a stage throws, the result is
`FAILED` carrying the thrown message and the `ERROR` status write is
best-effort — if it fails too, the stored status is untouched and the
caller still receives `FAILED`. -/
theorem analyzeInspection_status_contract (env : AnalysisEnv)
    (inspectionId status₀ : String) :
    ((analyzeInspection env inspectionId status₀).1.status = "COMPLETED"
        ∨ (analyzeInspection env inspectionId status₀).1.status = "FAILED")
      ∧ (∀ (inspection : FirestoreInspectionData)
          (transcription : TranscriptionResult)
          (photos : List FirestorePhotoData),
          env.getInspection = .ok (some inspection) →
          jsStrTruthy inspection.firebaseAudioUrl = true →
          env.transcribeResult (inspection.firebaseAudioUrl.getD "")
              = .ok transcription →
          env.getPhotos = .ok photos →
          env.updateStatusFails "READY" = false →
          (analyzeInspection env inspectionId status₀).1.status = "COMPLETED"
            ∧ (analyzeInspection env inspectionId status₀).2.1 = "READY")
      ∧ (∀ msg, analyzeInspectionTry env = .error msg →
          (analyzeInspection env inspectionId status₀).1.status = "FAILED"
            ∧ (analyzeInspection env inspectionId status₀).1.error = some msg
            ∧ (analyzeInspection env inspectionId status₀).2.1
                = if env.updateStatusFails "ERROR" then status₀ else "ERROR")
      ∧ (∀ transcription photoCaptions,
          analyzeInspectionTry env = .ok (transcription, photoCaptions) →
          env.updateStatusFails "READY" = true →
          (analyzeInspection env inspectionId status₀).1.status = "FAILED"
            ∧ (analyzeInspection env inspectionId status₀).2.1
                = if env.updateStatusFails "ERROR" then status₀ else "ERROR") := by
  refine ⟨?_, ?_, ?_, ?_⟩
  · cases htry : analyzeInspectionTry env with
    | error msg =>
      simp [analyzeInspection, htry, analysisCatch, analysisFailureResult]
    | ok pr =>
      obtain ⟨tr, pcs⟩ := pr
      by_cases hw : env.updateStatusFails "READY"
      · simp [analyzeInspection, htry, fsUpdateInspectionStatus, hw,
          analysisCatch, analysisFailureResult]
      · simp [analyzeInspection, htry, fsUpdateInspectionStatus, hw]
  · intro inspection transcription photos hi hu ht hp hr
    have htry : analyzeInspectionTry env
        = .ok (transcription,
            generateCaptionsForPhotos env.llm photos transcription
              ⟨inspection.client, inspection.address,
                inspection.claimNumber⟩) := by
      simp [analyzeInspectionTry, hi, hu, ht, hp, bind, Except.bind, pure,
        Except.pure]
    constructor
    · simp [analyzeInspection, htry, fsUpdateInspectionStatus, hr]
    · simp [analyzeInspection, htry, fsUpdateInspectionStatus, hr]
  · intro msg htry
    refine ⟨?_, ?_, ?_⟩
    · simp [analyzeInspection, htry, analysisCatch, analysisFailureResult]
    · simp [analyzeInspection, htry, analysisCatch, analysisFailureResult]
    · by_cases he : env.updateStatusFails "ERROR"
      · simp [analyzeInspection, htry, analysisCatch,
          fsUpdateInspectionStatus, he]
      · simp [analyzeInspection, htry, analysisCatch,
          fsUpdateInspectionStatus, he]
  · intro transcription photoCaptions htry hw
    constructor
    · simp [analyzeInspection, htry, fsUpdateInspectionStatus, hw,
        analysisCatch, analysisFailureResult]
    · by_cases he : env.updateStatusFails "ERROR"
      · simp [analyzeInspection, htry, fsUpdateInspectionStatus, hw,
          analysisCatch, he]
      · simp [analyzeInspection, htry, fsUpdateInspectionStatus, hw,
          analysisCatch, he]

theorem analyzeInspection_status_contract_witness :
    c7env.getInspection = .ok (some c7inspection)
      ∧ jsStrTruthy c7inspection.firebaseAudioUrl = true
      ∧ c7env.transcribeResult (c7inspection.firebaseAudioUrl.getD "")
          = .ok c7transcription
      ∧ c7env.getPhotos = .ok [c7photo1, c7photo2]
      ∧ c7env.updateStatusFails "READY" = false
      ∧ generateCaption c7env.llm
          (buildCaptionRequest c7transcription
            ⟨"Client A", "123 Main St", "CLM-001"⟩ c7photo2) = none
      ∧ ((analyzeInspection c7env "insp-1" "PROCESSING").1.status
            = "COMPLETED"
        ∧ (analyzeInspection c7env "insp-1" "PROCESSING").2.1 = "READY") :=
  ⟨rfl, rfl, rfl, rfl, rfl, rfl,
    (analyzeInspection_status_contract c7env "insp-1" "PROCESSING").2.1
      c7inspection c7transcription [c7photo1, c7photo2]
      rfl rfl rfl rfl rfl⟩

/-- Claim C10: every caption request the orchestrator builds carries a
non-empty audio context: the context-extraction result for the photo's
audio timestamp when that is non-empty, and the fixed string
`"No audio context available"` when context extraction produced the
empty string — the caption pipeline never receives an empty context
from the orchestrator. -/
theorem captionRequests_context_never_empty
    (transcription : TranscriptionResult) (details : InspectionDetails)
    (photos : List FirestorePhotoData) :
    ∀ request ∈ captionRequestsOfPhotos transcription details photos,
      request.audioContext
          = jsStrOr
              (getContextAroundTimestamp transcription.segments
                request.photoTimestamp 3000)
              "No audio context available"
        ∧ request.audioContext ≠ ""
        ∧ (getContextAroundTimestamp transcription.segments
              request.photoTimestamp 3000 = "" →
            request.audioContext = "No audio context available") := by
  intro request hreq
  obtain ⟨photo, hphoto, rfl⟩ :=
    List.mem_map.mp hreq
  refine ⟨rfl, ?_, ?_⟩
  · show jsStrOr
        (getContextAroundTimestamp transcription.segments
          photo.audioTimestamp 3000) "No audio context available" ≠ ""
    unfold jsStrOr
    split_ifs with hc
    · decide
    · exact hc
  · intro hempty
    simp only [buildCaptionRequest] at hempty ⊢
    simp [jsStrOr, hempty]

theorem captionRequests_context_never_empty_witness :
    buildCaptionRequest c10transcription c10details c10photo
        ∈ captionRequestsOfPhotos c10transcription c10details [c10photo]
      ∧ ((buildCaptionRequest c10transcription c10details
            c10photo).audioContext
          = jsStrOr
              (getContextAroundTimestamp c10transcription.segments
                (buildCaptionRequest c10transcription c10details
                  c10photo).photoTimestamp 3000)
              "No audio context available"
        ∧ (buildCaptionRequest c10transcription c10details
            c10photo).audioContext ≠ ""
        ∧ (getContextAroundTimestamp c10transcription.segments
              (buildCaptionRequest c10transcription c10details
                c10photo).photoTimestamp 3000 = "" →
            (buildCaptionRequest c10transcription c10details
              c10photo).audioContext = "No audio context available"))
      ∧ (buildCaptionRequest c10transcription c10details
          c10photo).audioContext = "No audio context available" :=
  ⟨by decide,
    captionRequests_context_never_empty c10transcription c10details
      [c10photo] (buildCaptionRequest c10transcription c10details c10photo)
      (by decide),
    by decide⟩
